import Mathlib

/-!
Verification of the scoring constants and the churn/tag-selection policy of
`sourcecode/scoring/constants.py`.

Pure module-level constants, the tag vocabularies, the scoring-group id sets,
the note-status-history TSV schema and the dataclasses are embedded directly
from the source.  The churn-rate limiter and the explanation-tag selector are
implemented outside this file's source tree; where a claim depends on them they
are modelled from the specification (each such definition is marked
`Modelled from the spec:`).
-/

namespace CommunityNotes

/-! ### Explanation-tag thresholds (constants.py lines 31-32) -/

def minRatingsToGetTag : Nat := 2

def minTagsNeededForStatus : Nat := 2

/-! ### Max flip rates (constants.py lines 37-41) -/

def prescoringAllUnlockedNotesMaxCrhChurn : ℚ := 4 / 100

def finalUnlockedNotesWithNoNewRatingsMaxCrhChurn : ℚ := 3 / 100

def finalNotesWithNewRatingsMaxCrhChurn : ℚ := 40 / 100

def finalNotesThatJustFlippedStatusMaxCrhChurn : ℚ := 10 ^ 8

def finalNotesThatFlippedRecentlyMaxCrhChurn : ℚ := 10 ^ 8

/-! ### Scoring groups (constants.py lines 65-71) -/

def coreGroups : Finset ℕ := {1, 2, 3, 6, 8, 9, 10, 11, 13, 14, 19, 21, 25}

def expansionGroups : Finset ℕ :=
  ({0, 15, 17, 24, 29, 30} : Finset ℕ) ∪ {4, 5, 7, 12, 26} ∪ {27} ∪ {16, 20, 22, 23, 28}

def expansionPlusGroups : Finset ℕ := {18}

/-! ### Tag vocabularies and tie-break orders (constants.py lines 245-306) -/

def helpfulOtherTagKey : String := "helpfulOther"

def helpfulTagsAndTieBreakOrder : List (Nat × String) :=
  [(0, helpfulOtherTagKey),
   (8, "helpfulInformative"),
   (7, "helpfulClear"),
   (3, "helpfulEmpathetic"),
   (4, "helpfulGoodSources"),
   (2, "helpfulUniqueContext"),
   (5, "helpfulAddressesClaim"),
   (6, "helpfulImportantContext"),
   (1, "helpfulUnbiasedLanguage")]

def notHelpfulIncorrectTagKey : String := "notHelpfulIncorrect"

def notHelpfulOtherTagKey : String := "notHelpfulOther"

def notHelpfulSpamHarassmentOrAbuseTagKey : String := "notHelpfulSpamHarassmentOrAbuse"

def notHelpfulArgumentativeOrBiasedTagKey : String := "notHelpfulArgumentativeOrBiased"

def notHelpfulHardToUnderstandKey : String := "notHelpfulHardToUnderstand"

def notHelpfulNoteNotNeededKey : String := "notHelpfulNoteNotNeeded"

def notHelpfulSourcesMissingOrUnreliableTagKey : String := "notHelpfulSourcesMissingOrUnreliable"

def notHelpfulIrrelevantSourcesTagKey : String := "notHelpfulIrrelevantSources"

def notHelpfulOpinionSpeculationOrBiasTagKey : String := "notHelpfulOpinionSpeculationOrBias"

def notHelpfulMissingKeyPointsTagKey : String := "notHelpfulMissingKeyPoints"

def notHelpfulOutdatedTagKey : String := "notHelpfulOutdated"

def notHelpfulOffTopicTagKey : String := "notHelpfulOffTopic"

def notHelpfulOpinionSpeculationTagKey : String := "notHelpfulOpinionSpeculation"

/-- The not-helpful tag vocabulary, in TSV order, each tag paired with its
hard-coded tie-break priority (source comments: `notHelpfulOther` "should lose
all tiebreaks", `notHelpfulOutdated` "should win all tiebreaks"). -/
def notHelpfulTagsAndTieBreakOrder : List (Nat × String) :=
  [(0, notHelpfulOtherTagKey),
   (8, notHelpfulIncorrectTagKey),
   (2, notHelpfulSourcesMissingOrUnreliableTagKey),
   (4, notHelpfulOpinionSpeculationOrBiasTagKey),
   (5, notHelpfulMissingKeyPointsTagKey),
   (12, notHelpfulOutdatedTagKey),
   (10, notHelpfulHardToUnderstandKey),
   (7, notHelpfulArgumentativeOrBiasedTagKey),
   (9, notHelpfulOffTopicTagKey),
   (11, notHelpfulSpamHarassmentOrAbuseTagKey),
   (1, notHelpfulIrrelevantSourcesTagKey),
   (3, notHelpfulOpinionSpeculationTagKey),
   (6, notHelpfulNoteNotNeededKey)]

/-! ### Note status labels (constants.py lines 236-238) -/

def currentlyRatedHelpful : String := "CURRENTLY_RATED_HELPFUL"

def currentlyRatedNotHelpful : String := "CURRENTLY_RATED_NOT_HELPFUL"

def needsMoreRatings : String := "NEEDS_MORE_RATINGS"

/-! ### Note status history TSV schema (constants.py lines 429-464) -/

def noteIdKey : String := "noteId"

def noteAuthorParticipantIdKey : String := "noteAuthorParticipantId"

def createdAtMillisKey : String := "createdAtMillis"

def timestampMillisOfNoteFirstNonNMRLabelKey : String := "timestampMillisOfFirstNonNMRStatus"

def firstNonNMRLabelKey : String := "firstNonNMRStatus"

def timestampMillisOfNoteCurrentLabelKey : String := "timestampMillisOfCurrentStatus"

def currentLabelKey : String := "currentStatus"

def timestampMillisOfNoteMostRecentNonNMRLabelKey : String := "timestampMillisOfLatestNonNMRStatus"

def mostRecentNonNMRLabelKey : String := "mostRecentNonNMRStatus"

def timestampMillisOfStatusLockKey : String := "timestampMillisOfStatusLock"

def lockedStatusKey : String := "lockedStatus"

def timestampMillisOfRetroLockKey : String := "timestampMillisOfRetroLock"

def currentCoreStatusKey : String := "currentCoreStatus"

def currentExpansionStatusKey : String := "currentExpansionStatus"

def currentGroupStatusKey : String := "currentGroupStatus"

def currentDecidedByKey : String := "currentDecidedBy"

def currentModelingGroupKey : String := "currentModelingGroup"

def timestampMillisOfMostRecentStatusChangeKey : String := "timestampMillisOfMostRecentStatusChange"

/-- The pandas dtypes used by the schemas in the source: `np.int64`,
`np.double` (used for nullable numeric columns), `object`, and `"category"`. -/
inductive TSVType where
  | int64
  | double
  | obj
  | category
deriving DecidableEq

/-- A double column holds either a valid number or a missing value (NaN); the
two are distinct states, so "never happened" is not conflated with time 0. -/
inductive DoubleValue where
  | missing
  | val (x : ℚ)
deriving DecidableEq

/-- Whether a column of this dtype can represent a missing value: `np.int64`
cannot hold NaN, the other dtypes used in the schema can. -/
def TSVType.nullable : TSVType → Bool
  | .int64 => false
  | .double => true
  | .obj => true
  | .category => true

def noteStatusHistoryTSVColumnsAndTypes : List (String × TSVType) :=
  [(noteIdKey, .int64),
   (noteAuthorParticipantIdKey, .obj),
   (createdAtMillisKey, .int64),
   (timestampMillisOfNoteFirstNonNMRLabelKey, .double),
   (firstNonNMRLabelKey, .category),
   (timestampMillisOfNoteCurrentLabelKey, .double),
   (currentLabelKey, .category),
   (timestampMillisOfNoteMostRecentNonNMRLabelKey, .double),
   (mostRecentNonNMRLabelKey, .category),
   (timestampMillisOfStatusLockKey, .double),
   (lockedStatusKey, .category),
   (timestampMillisOfRetroLockKey, .double),
   (currentCoreStatusKey, .category),
   (currentExpansionStatusKey, .category),
   (currentGroupStatusKey, .category),
   (currentDecidedByKey, .category),
   (currentModelingGroupKey, .double),
   (timestampMillisOfMostRecentStatusChangeKey, .double)]

def noteStatusHistoryTSVColumns : List String :=
  noteStatusHistoryTSVColumnsAndTypes.map Prod.fst

def noteStatusHistoryTSVTypeMapping (col : String) : Option TSVType :=
  (noteStatusHistoryTSVColumnsAndTypes.find? (fun p => p.1 = col)).map Prod.snd

/-! ### Rescoring rules and note subsets (constants.py lines 878-890) -/

/-- `RescoringRuleID(Enum)` from the source, with the integer values 1-5. -/
inductive RescoringRuleID where
  | ALL_NOTES
  | NOTES_WITH_NEW_RATINGS
  | NOTES_FLIPPED_PREVIOUS_RUN
  | NEW_NOTES_NOT_RESCORED_RECENTLY_ENOUGH
  | RECENTLY_FLIPPED_NOTES_NOT_RESCORED_RECENTLY_ENOUGH
deriving DecidableEq

/-- The integer value of each `RescoringRuleID` enum member in the source. -/
def RescoringRuleID.value : RescoringRuleID → Nat
  | .ALL_NOTES => 1
  | .NOTES_WITH_NEW_RATINGS => 2
  | .NOTES_FLIPPED_PREVIOUS_RUN => 3
  | .NEW_NOTES_NOT_RESCORED_RECENTLY_ENOUGH => 4
  | .RECENTLY_FLIPPED_NOTES_NOT_RESCORED_RECENTLY_ENOUGH => 5

/-- All five members of the `RescoringRuleID` enum, in declaration order. -/
def RescoringRuleID.all : List RescoringRuleID :=
  [.ALL_NOTES,
   .NOTES_WITH_NEW_RATINGS,
   .NOTES_FLIPPED_PREVIOUS_RUN,
   .NEW_NOTES_NOT_RESCORED_RECENTLY_ENOUGH,
   .RECENTLY_FLIPPED_NOTES_NOT_RESCORED_RECENTLY_ENOUGH]

/-- One of the three note statuses (`currentlyRatedHelpful`,
`currentlyRatedNotHelpful`, `needsMoreRatings` in the source). -/
inductive NoteStatus where
  | crh
  | crnh
  | nmr
deriving DecidableEq

/-- `NoteSubset` dataclass from the source: an optional explicit note-id set
and the subset's maximum allowed CRH churn rate. -/
structure NoteSubset where
  noteSet : Option (List ℕ)
  maxCrhChurnRate : ℚ

/-- A proposed `(note, oldStatus, newStatus)` triple for one run. -/
structure StatusTriple where
  noteId : ℕ
  oldStatus : NoteStatus
  newStatus : NoteStatus
deriving DecidableEq

/-- Churn rate over a list of triples: the fraction whose status flipped.
(The empty subset has churn rate 0, as `0 / 0 = 0` in `ℚ`.) -/
def churnRate (triples : List StatusTriple) : ℚ :=
  ((triples.filter (fun t => t.oldStatus ≠ t.newStatus)).length : ℚ) / (triples.length : ℚ)

/-- Modelled from the spec: the churn-rate limiter's per-subset gate (the
limiter implementation is outside the embedded source file).  A subset passes
exactly when its churn rate is at most its configured maximum. -/
def subsetWithinChurnLimit (subset : NoteSubset) (triples : List StatusTriple) : Bool :=
  churnRate triples ≤ subset.maxCrhChurnRate

/-- Modelled from the spec: committing one run.  The run's proposed status
history is committed only if every rescoring-rule subset is within its churn
limit; otherwise the run fails and the previously persisted history is kept
unchanged.  Returns the persisted history and whether the run was committed. -/
def commitRun {H : Type} (subsets : List (NoteSubset × List StatusTriple))
    (prevHistory proposedHistory : H) : H × Bool :=
  if subsets.all (fun s => subsetWithinChurnLimit s.1 s.2) then (proposedHistory, true)
  else (prevHistory, false)

/-! ### Explanation-tag selection (modelled from the spec; thresholds from
constants.py lines 31-32, vocabularies and tie-break priorities from
constants.py lines 245-306) -/

/-- `p` ranks strictly above `q` for tag selection: more votes, or equal votes
and a strictly higher tie-break priority. -/
def tagBeats (counts : String → Nat) (p q : Nat × String) : Prop :=
  counts q.2 < counts p.2 ∨ (counts p.2 = counts q.2 ∧ q.1 < p.1)

instance (counts : String → Nat) (p q : Nat × String) : Decidable (tagBeats counts p q) := by
  unfold tagBeats
  infer_instance

/-- Modelled from the spec: a tag is eligible when its vote count reaches
`minRatingsToGetTag`. -/
def eligibleTags (counts : String → Nat) (vocab : List (Nat × String)) :
    List (Nat × String) :=
  vocab.filter (fun p => minRatingsToGetTag ≤ counts p.2)

/-- The running best entry under `tagBeats`, starting from `a`. -/
def pickAcc (counts : String → Nat) (a : Nat × String) :
    List (Nat × String) → Nat × String
  | [] => a
  | y :: ys => pickAcc counts (if tagBeats counts y a then y else a) ys

/-- The best-ranked entry of a list under `tagBeats`, if the list is nonempty. -/
def pickBest (counts : String → Nat) : List (Nat × String) → Option (Nat × String)
  | [] => none
  | x :: xs => some (pickAcc counts x xs)

/-- Modelled from the spec: the explanation-tag selector.  If fewer than
`minTagsNeededForStatus` tags are eligible, no tag is selected; otherwise the
two best-ranked eligible tags are returned as (firstTag, secondTag). -/
def topTwoTags (counts : String → Nat) (vocab : List (Nat × String)) :
    Option String × Option String :=
  if (eligibleTags counts vocab).length < minTagsNeededForStatus then (none, none)
  else
    match pickBest counts (eligibleTags counts vocab) with
    | none => (none, none)
    | some t1 =>
      match pickBest counts ((eligibleTags counts vocab).erase t1) with
      | none => (some t1.2, none)
      | some t2 => (some t1.2, some t2.2)

/-! ### Cross-phase scoring-argument dataclasses (constants.py lines 792-866).
Pandas DataFrames are abstracted by a type parameter `DF`; an `Optional`/
None-able field is an `Option`. -/

/-- `ReputationGlobalIntercept` dataclass: the three-stage low-diligence
global intercept record. -/
structure ReputationGlobalIntercept where
  firstRound : ℚ
  secondRound : ℚ
  finalRound : ℚ
deriving DecidableEq

/-- `PrescoringMetaScorerOutput` dataclass. -/
structure PrescoringMetaScorerOutput where
  globalIntercept : Option ℚ
  lowDiligenceGlobalIntercept : Option ReputationGlobalIntercept
  tagFilteringThresholds : Option (List (String × ℚ))
deriving DecidableEq

/-- `PrescoringMetaOutput` dataclass: scorerName => output. -/
structure PrescoringMetaOutput where
  metaScorerOutput : List (String × PrescoringMetaScorerOutput)
deriving DecidableEq

/-- `SharedMemoryDataframeInfo` dataclass: a handle to a large tabular payload,
a shared-memory name plus a byte size. -/
structure SharedMemoryDataframeInfo where
  sharedMemoryName : String
  dataSize : ℤ
deriving DecidableEq

/-- `ScoringArgsSharedMemory` dataclass: the descriptors handed across the
execution-context boundary for a scoring phase. -/
structure ScoringArgsSharedMemory where
  noteTopics : SharedMemoryDataframeInfo
  ratings : SharedMemoryDataframeInfo
  noteStatusHistory : SharedMemoryDataframeInfo
  userEnrollment : SharedMemoryDataframeInfo
deriving DecidableEq

/-- `PrescoringArgsSharedMemory(ScoringArgsSharedMemory)` dataclass: adds no
field. -/
structure PrescoringArgsSharedMemory extends ScoringArgsSharedMemory
deriving DecidableEq

/-- `FinalScoringArgsSharedMemory(ScoringArgsSharedMemory)` dataclass: adds
the prescoring note-level and rater-level model-output descriptors. -/
structure FinalScoringArgsSharedMemory extends ScoringArgsSharedMemory where
  prescoringNoteModelOutput : SharedMemoryDataframeInfo
  prescoringRaterModelOutput : SharedMemoryDataframeInfo
deriving DecidableEq

/-- `ScoringArgs` dataclass.  Each DataFrame field may be set to `None` by
`remove_large_args_for_multiprocessing`, so it is an `Option DF`. -/
structure ScoringArgs (DF : Type) where
  noteTopics : Option DF
  ratings : Option DF
  noteStatusHistory : Option DF
  userEnrollment : Option DF
deriving DecidableEq

/-- `ScoringArgs.remove_large_args_for_multiprocessing`: sets `noteTopics`,
`ratings`, `noteStatusHistory` and `userEnrollment` to None. -/
def ScoringArgs.remove_large_args_for_multiprocessing {DF : Type}
    (_args : ScoringArgs DF) : ScoringArgs DF :=
  ScoringArgs.mk none none none none

/-- `FinalScoringArgs(ScoringArgs)` dataclass: adds the prescoring note/rater
model outputs and the prescoring meta output. -/
structure FinalScoringArgs (DF : Type) extends ScoringArgs DF where
  prescoringNoteModelOutput : Option DF
  prescoringRaterModelOutput : Option DF
  prescoringMetaOutput : PrescoringMetaOutput
deriving DecidableEq

/-- `FinalScoringArgs.remove_large_args_for_multiprocessing`: sets `ratings`,
`noteStatusHistory`, `userEnrollment`, `prescoringNoteModelOutput` and
`prescoringRaterModelOutput` to None, leaving `noteTopics` and
`prescoringMetaOutput` as they were. -/
def FinalScoringArgs.remove_large_args_for_multiprocessing {DF : Type}
    (args : FinalScoringArgs DF) : FinalScoringArgs DF :=
  FinalScoringArgs.mk (ScoringArgs.mk args.noteTopics none none none)
    none none args.prescoringMetaOutput

/-- The status-history fields asserted by the claim (written from the spec's
words, for comparison with the source schema `noteStatusHistoryTSVColumnsAndTypes`):
creation time; first non-NMR label and timestamp; current label and timestamp;
most-recent non-NMR label and timestamp; lock timestamp and locked label;
retro-lock timestamp; per-tier labels; decidedBy tier; modeling group;
timestamp of the most recent status change. -/
def claimedStatusHistoryFields : List String :=
  [createdAtMillisKey,
   timestampMillisOfNoteFirstNonNMRLabelKey,
   firstNonNMRLabelKey,
   timestampMillisOfNoteCurrentLabelKey,
   currentLabelKey,
   timestampMillisOfNoteMostRecentNonNMRLabelKey,
   mostRecentNonNMRLabelKey,
   timestampMillisOfStatusLockKey,
   lockedStatusKey,
   timestampMillisOfRetroLockKey,
   currentCoreStatusKey,
   currentExpansionStatusKey,
   currentGroupStatusKey,
   currentDecidedByKey,
   currentModelingGroupKey,
   timestampMillisOfMostRecentStatusChangeKey]

/-- Example vote counts: 2 votes each on `notHelpfulOutdated` and
`notHelpfulOther`, none elsewhere. -/
def exampleTagCounts : String → Nat := fun s =>
  if s = notHelpfulOutdatedTagKey ∨ s = notHelpfulOtherTagKey then 2 else 0

/-- Any churn rate is at most 1: the flipped triples are a sublist of the
subset's triples (and the empty subset has churn rate 0). -/
lemma churnRate_le_one (triples : List StatusTriple) : churnRate triples ≤ 1 := by
  unfold churnRate
  apply div_le_one_of_le₀
  · exact_mod_cast List.length_filter_le _ _
  · positivity

lemma tagBeats_irrefl (c : String → Nat) (p : Nat × String) : ¬ tagBeats c p p := by
  unfold tagBeats
  omega

lemma tagBeats_asymm {c : String → Nat} {p q : Nat × String} (h : tagBeats c p q) :
    ¬ tagBeats c q p := by
  unfold tagBeats at *
  omega

lemma tagBeats_neg_trans {c : String → Nat} {p q r : Nat × String}
    (h1 : ¬ tagBeats c p q) (h2 : ¬ tagBeats c q r) : ¬ tagBeats c p r := by
  unfold tagBeats at *
  omega

/-- The running best is the start or a member of the list, and nothing seen
beats it. -/
lemma pickAcc_spec (c : String → Nat) (l : List (Nat × String)) (a : Nat × String) :
    (pickAcc c a l = a ∨ pickAcc c a l ∈ l) ∧
    ¬ tagBeats c a (pickAcc c a l) ∧
    ∀ x ∈ l, ¬ tagBeats c x (pickAcc c a l) := by
  induction l generalizing a with
  | nil => exact ⟨Or.inl rfl, tagBeats_irrefl c a, by simp⟩
  | cons y ys ih =>
    have hstep : pickAcc c a (y :: ys) =
        pickAcc c (if tagBeats c y a then y else a) ys := rfl
    by_cases hy : tagBeats c y a
    · rw [hstep, if_pos hy]
      obtain ⟨hmem, hacc, hall⟩ := ih y
      refine ⟨?_, tagBeats_neg_trans (tagBeats_asymm hy) hacc, ?_⟩
      · rcases hmem with h | h
        · exact Or.inr (by rw [h]; exact List.mem_cons_self y ys)
        · exact Or.inr (List.mem_cons_of_mem y h)
      · intro x hx
        rcases List.mem_cons.mp hx with rfl | hx
        · exact hacc
        · exact hall x hx
    · rw [hstep, if_neg hy]
      obtain ⟨hmem, hacc, hall⟩ := ih a
      refine ⟨?_, hacc, ?_⟩
      · rcases hmem with h | h
        · exact Or.inl h
        · exact Or.inr (List.mem_cons_of_mem y h)
      · intro x hx
        rcases List.mem_cons.mp hx with rfl | hx
        · exact tagBeats_neg_trans hy hacc
        · exact hall x hx

lemma pickBest_mem {c : String → Nat} {l : List (Nat × String)} {m : Nat × String}
    (h : pickBest c l = some m) : m ∈ l := by
  cases l with
  | nil => simp [pickBest] at h
  | cons x xs =>
    have hm : pickAcc c x xs = m := by simpa [pickBest] using h
    rcases (pickAcc_spec c xs x).1 with h1 | h1
    · rw [hm] at h1
      exact h1 ▸ List.mem_cons_self x xs
    · rw [hm] at h1
      exact List.mem_cons_of_mem x h1

lemma pickBest_not_beaten {c : String → Nat} {l : List (Nat × String)} {m : Nat × String}
    (h : pickBest c l = some m) : ∀ x ∈ l, ¬ tagBeats c x m := by
  cases l with
  | nil => simp [pickBest] at h
  | cons x xs =>
    have hm : pickAcc c x xs = m := by simpa [pickBest] using h
    subst hm
    intro z hz
    rcases List.mem_cons.mp hz with rfl | hz
    · exact (pickAcc_spec c xs z).2.1
    · exact (pickAcc_spec c xs x).2.2 z hz

/-! ### Claims -/

/-- C1 (counterexample): the claim attaches the description "notes with new
ratings since last run" (max churn 0.40) to rule 3, but in the source
`RescoringRuleID.NOTES_WITH_NEW_RATINGS` has value 2, and rule 3 is
`NOTES_FLIPPED_PREVIOUS_RUN`; likewise rule 4 is
`NEW_NOTES_NOT_RESCORED_RECENTLY_ENOUGH`, not "notes whose status just flipped
this run". -/
theorem rescoring_rule_numbering_counterexample :
    RescoringRuleID.NOTES_WITH_NEW_RATINGS.value = 2 ∧
    RescoringRuleID.NOTES_WITH_NEW_RATINGS.value ≠ 3 ∧
    RescoringRuleID.NOTES_FLIPPED_PREVIOUS_RUN.value = 3 ∧
    RescoringRuleID.NEW_NOTES_NOT_RESCORED_RECENTLY_ENOUGH.value = 4 := by
  decide

/-- C1 (amended): the rescoring-rule policy has exactly five fixed rules with
priority values 1-5 (`ALL_NOTES` = 1, `NOTES_WITH_NEW_RATINGS` = 2,
`NOTES_FLIPPED_PREVIOUS_RUN` = 3, `NEW_NOTES_NOT_RESCORED_RECENTLY_ENOUGH` = 4,
`RECENTLY_FLIPPED_NOTES_NOT_RESCORED_RECENTLY_ENOUGH` = 5), and exactly five
configured maximum churn rates: 0.04 for all unlocked notes at prescoring,
0.03 for unlocked notes with no new ratings since last run, 0.40 for notes
with new ratings since last run, and 1e8 — effectively unlimited, since every
churn rate is at most 1 — for the just-flipped and recently-flipped rules. -/
theorem rescoring_rule_policy :
    (∀ r : RescoringRuleID, r ∈ RescoringRuleID.all) ∧
    RescoringRuleID.all.map RescoringRuleID.value = [1, 2, 3, 4, 5] ∧
    prescoringAllUnlockedNotesMaxCrhChurn = 4 / 100 ∧
    finalUnlockedNotesWithNoNewRatingsMaxCrhChurn = 3 / 100 ∧
    finalNotesWithNewRatingsMaxCrhChurn = 40 / 100 ∧
    finalNotesThatJustFlippedStatusMaxCrhChurn = 10 ^ 8 ∧
    finalNotesThatFlippedRecentlyMaxCrhChurn = 10 ^ 8 ∧
    (∀ triples : List StatusTriple,
      churnRate triples ≤ finalNotesThatJustFlippedStatusMaxCrhChurn) ∧
    (∀ triples : List StatusTriple,
      churnRate triples ≤ finalNotesThatFlippedRecentlyMaxCrhChurn) := by
  refine ⟨fun r => by cases r <;> decide, rfl, rfl, rfl, rfl, rfl, rfl, ?_, ?_⟩ <;>
    · intro triples
      calc churnRate triples ≤ 1 := churnRate_le_one triples
        _ ≤ 10 ^ 8 := by norm_num

/-- C2: for every rescoring-rule subset (in particular every subset with a
finite configured maximum), in a committed run the subset's churn rate is at
most its configured maximum and the committed history is exactly the proposed
one (no flips are truncated); if any subset exceeds its maximum, the run is
not committed and the previously persisted history is left untouched. -/
theorem churn_limiter_all_or_nothing {H : Type}
    (subsets : List (NoteSubset × List StatusTriple)) (prev proposed : H)
    (s : NoteSubset × List StatusTriple) (hs : s ∈ subsets) :
    ((commitRun subsets prev proposed).2 = true →
      churnRate s.2 ≤ s.1.maxCrhChurnRate ∧
      (commitRun subsets prev proposed).1 = proposed) ∧
    (¬ churnRate s.2 ≤ s.1.maxCrhChurnRate →
      (commitRun subsets prev proposed).2 = false ∧
      (commitRun subsets prev proposed).1 = prev) := by
  by_cases hall : subsets.all (fun s => subsetWithinChurnLimit s.1 s.2) = true
  · have hrate : churnRate s.2 ≤ s.1.maxCrhChurnRate := by
      have := List.all_eq_true.mp hall s hs
      simpa [subsetWithinChurnLimit] using this
    refine ⟨fun _ => ⟨hrate, ?_⟩, fun hexc => absurd hrate hexc⟩
    simp [commitRun, hall]
  · refine ⟨fun hcommitted => absurd hcommitted ?_, fun _ => ?_⟩ <;>
      simp [commitRun, hall]

/-- Witness for C2: a single subset with limit 0.03 and one non-flipping
triple; the run is committed with the proposed history. -/
theorem churn_limiter_all_or_nothing_witness :
    (commitRun [(NoteSubset.mk none (3 / 100), [StatusTriple.mk 1 .nmr .nmr])]
        (0 : ℕ) 1).1 = 1 ∧
    churnRate [StatusTriple.mk 1 .nmr .nmr] ≤ (NoteSubset.mk none (3 / 100)).maxCrhChurnRate :=
  have h := (churn_limiter_all_or_nothing
      [(NoteSubset.mk none (3 / 100), [StatusTriple.mk 1 .nmr .nmr])] 0 1
      (NoteSubset.mk none (3 / 100), [StatusTriple.mk 1 .nmr .nmr])
      (List.Mem.head _)).1 (by
        have h0 : churnRate [StatusTriple.mk 1 .nmr .nmr] = 0 := by simp [churnRate]
        simp [commitRun, subsetWithinChurnLimit, h0]
        norm_num)
  ⟨h.2, h.1⟩

/-- C3: the helpful-tag vocabulary has exactly 9 tags, the not-helpful-tag
vocabulary exactly 13; each tag carries a fixed tie-break priority, and in
each vocabulary the catch-all "other" tag is the unique tag with priority 0,
the minimum possible priority, so it loses every tie. -/
theorem tag_vocabularies_sizes_and_other_priority :
    helpfulTagsAndTieBreakOrder.length = 9 ∧
    notHelpfulTagsAndTieBreakOrder.length = 13 ∧
    helpfulTagsAndTieBreakOrder.filter (fun p => p.1 = 0) = [(0, helpfulOtherTagKey)] ∧
    notHelpfulTagsAndTieBreakOrder.filter (fun p => p.1 = 0) = [(0, notHelpfulOtherTagKey)] := by
  decide

/-- C6 (counterexample): the persisted status-history schema does not consist
exactly of the fields listed by the claim — it additionally contains the
`noteId` and `noteAuthorParticipantId` columns. -/
theorem status_history_fields_counterexample :
    noteStatusHistoryTSVColumns ≠ claimedStatusHistoryFields ∧
    noteIdKey ∈ noteStatusHistoryTSVColumns ∧
    noteIdKey ∉ claimedStatusHistoryFields ∧
    noteAuthorParticipantIdKey ∈ noteStatusHistoryTSVColumns ∧
    noteAuthorParticipantIdKey ∉ claimedStatusHistoryFields := by
  decide

/-- C6 (amended): the persisted per-note status-history schema consists of the
note id and the note author id followed by exactly the fields listed by the
claim, in order: creation time; first non-NMR timestamp and label; current
timestamp and label; most-recent non-NMR timestamp and label; lock timestamp
and locked label; retro-lock timestamp; core/expansion/group labels; decidedBy
tier; modeling group; timestamp of the most recent status change. -/
theorem status_history_fields :
    noteStatusHistoryTSVColumns =
      noteIdKey :: noteAuthorParticipantIdKey :: claimedStatusHistoryFields := by
  decide

/-- C7: every optional timestamp field of the status-history schema (first
non-NMR, current, most recent non-NMR, status lock, retro-lock, most recent
status change) is typed `np.double`, a nullable numeric dtype, and the missing
(NaN) state is distinct from every numeric value, in particular from 0. -/
theorem status_history_timestamps_nullable :
    noteStatusHistoryTSVTypeMapping timestampMillisOfNoteFirstNonNMRLabelKey = some .double ∧
    noteStatusHistoryTSVTypeMapping timestampMillisOfNoteCurrentLabelKey = some .double ∧
    noteStatusHistoryTSVTypeMapping timestampMillisOfNoteMostRecentNonNMRLabelKey = some .double ∧
    noteStatusHistoryTSVTypeMapping timestampMillisOfStatusLockKey = some .double ∧
    noteStatusHistoryTSVTypeMapping timestampMillisOfRetroLockKey = some .double ∧
    noteStatusHistoryTSVTypeMapping timestampMillisOfMostRecentStatusChangeKey = some .double ∧
    TSVType.double.nullable = true ∧
    (∀ x : ℚ, DoubleValue.missing ≠ DoubleValue.val x) :=
  ⟨by decide, by decide, by decide, by decide, by decide, by decide, rfl,
   fun _ h => DoubleValue.noConfusion h⟩

/-- C8: a shared-payload handle is exactly a name plus a byte size; the
prescoring hand-off record is determined by exactly the four table descriptors
`noteTopics`, `ratings`, `noteStatusHistory`, `userEnrollment`, and the
final-scoring hand-off by exactly those four plus the prescoring note-level
and rater-level model-output descriptors (extensionality in those fields). -/
theorem shared_memory_handoff_fields :
    (∀ a b : SharedMemoryDataframeInfo,
      a.sharedMemoryName = b.sharedMemoryName → a.dataSize = b.dataSize → a = b) ∧
    (∀ a b : PrescoringArgsSharedMemory,
      a.noteTopics = b.noteTopics → a.ratings = b.ratings →
      a.noteStatusHistory = b.noteStatusHistory → a.userEnrollment = b.userEnrollment →
      a = b) ∧
    (∀ a b : FinalScoringArgsSharedMemory,
      a.noteTopics = b.noteTopics → a.ratings = b.ratings →
      a.noteStatusHistory = b.noteStatusHistory → a.userEnrollment = b.userEnrollment →
      a.prescoringNoteModelOutput = b.prescoringNoteModelOutput →
      a.prescoringRaterModelOutput = b.prescoringRaterModelOutput → a = b) := by
  refine ⟨?_, ?_, ?_⟩
  · rintro ⟨an, ad⟩ ⟨bn, bd⟩ h1 h2
    simp_all
  · rintro ⟨⟨a1, a2, a3, a4⟩⟩ ⟨⟨b1, b2, b3, b4⟩⟩ h1 h2 h3 h4
    simp_all
  · rintro ⟨⟨a1, a2, a3, a4⟩, a5, a6⟩ ⟨⟨b1, b2, b3, b4⟩, b5, b6⟩ h1 h2 h3 h4 h5 h6
    simp_all

/-- Witness for C8 at concrete records. -/
theorem shared_memory_handoff_fields_witness :
    SharedMemoryDataframeInfo.mk "ratings" 4096 = SharedMemoryDataframeInfo.mk "ratings" 4096 :=
  shared_memory_handoff_fields.1 _ _ rfl rfl

/-- C9: stripping large arguments for multiprocessing sets all four table
fields of the prescoring args to None; on the final-scoring args it sets
`ratings`, `noteStatusHistory`, `userEnrollment`, `prescoringNoteModelOutput`
and `prescoringRaterModelOutput` to None while leaving the only other fields,
`noteTopics` and `prescoringMetaOutput`, unchanged. -/
theorem remove_large_args_fields {DF : Type}
    (p : ScoringArgs DF) (f : FinalScoringArgs DF) :
    p.remove_large_args_for_multiprocessing = ScoringArgs.mk none none none none ∧
    f.remove_large_args_for_multiprocessing.ratings = none ∧
    f.remove_large_args_for_multiprocessing.noteStatusHistory = none ∧
    f.remove_large_args_for_multiprocessing.userEnrollment = none ∧
    f.remove_large_args_for_multiprocessing.prescoringNoteModelOutput = none ∧
    f.remove_large_args_for_multiprocessing.prescoringRaterModelOutput = none ∧
    f.remove_large_args_for_multiprocessing.noteTopics = f.noteTopics ∧
    f.remove_large_args_for_multiprocessing.prescoringMetaOutput = f.prescoringMetaOutput :=
  ⟨rfl, rfl, rfl, rfl, rfl, rfl, rfl, rfl⟩

/-- C10: the three modeling-group id sets are pairwise disjoint and their
union is exactly the integers 0 through 30, so every id in that range belongs
to exactly one model tier. -/
theorem modeling_groups_partition :
    Disjoint coreGroups expansionGroups ∧
    Disjoint coreGroups expansionPlusGroups ∧
    Disjoint expansionGroups expansionPlusGroups ∧
    coreGroups ∪ expansionGroups ∪ expansionPlusGroups = Finset.range 31 := by
  decide

/-- C4: tag selection is a pure function, so repeated invocation on the same
counts yields the identical pair; whenever two tags of a vocabulary with
duplicate-free tag names have equal vote counts and the lower-priority one
qualifies, the lower-priority tag is never selected ahead of the
higher-priority one (it cannot be firstTag, and it can be secondTag only with
the higher-priority tag as firstTag); `notHelpfulOutdated` holds the maximum
priority 12 of the not-helpful vocabulary and `notHelpfulOther` priority 0. -/
theorem tag_selection_deterministic_tiebreak
    (vocab : List (Nat × String)) (counts : String → Nat) (p q : Nat × String)
    (hnodup : (vocab.map Prod.snd).Nodup)
    (hp : p ∈ vocab) (hq : q ∈ vocab)
    (heq : counts p.2 = counts q.2) (hpr : q.1 < p.1)
    (hqual : minRatingsToGetTag ≤ counts q.2) :
    topTwoTags counts vocab = topTwoTags counts vocab ∧
    (topTwoTags counts vocab).1 ≠ some q.2 ∧
    ((topTwoTags counts vocab).2 = some q.2 →
      (topTwoTags counts vocab).1 = some p.2) ∧
    (12, notHelpfulOutdatedTagKey) ∈ notHelpfulTagsAndTieBreakOrder ∧
    (0, notHelpfulOtherTagKey) ∈ notHelpfulTagsAndTieBreakOrder ∧
    notHelpfulTagsAndTieBreakOrder.all (fun e => e.1 ≤ 12) = true := by
  have hpelig : p ∈ eligibleTags counts vocab := by
    refine List.mem_filter.mpr ⟨hp, ?_⟩
    simp only [decide_eq_true_eq]
    omega
  have hqelig : q ∈ eligibleTags counts vocab := by
    refine List.mem_filter.mpr ⟨hq, ?_⟩
    simp only [decide_eq_true_eq]
    exact hqual
  have hsub : ∀ x ∈ eligibleTags counts vocab, x ∈ vocab :=
    fun x hx => (List.mem_filter.mp hx).1
  have hinj : ∀ a ∈ eligibleTags counts vocab, ∀ b ∈ eligibleTags counts vocab,
      a.2 = b.2 → a = b :=
    fun a ha b hb hab =>
      List.inj_on_of_nodup_map hnodup (hsub a ha) (hsub b hb) hab
  have hbeats : tagBeats counts p q := Or.inr ⟨heq, hpr⟩
  have hmain : (topTwoTags counts vocab).1 ≠ some q.2 ∧
      ((topTwoTags counts vocab).2 = some q.2 →
        (topTwoTags counts vocab).1 = some p.2) := by
    by_cases hlen : (eligibleTags counts vocab).length < minTagsNeededForStatus
    · rw [topTwoTags, if_pos hlen]
      exact ⟨by simp, by simp⟩
    · rw [topTwoTags, if_neg hlen]
      split
      · exact ⟨by simp, by simp⟩
      · rename_i t1 h1
        have ht1ne : t1.2 ≠ q.2 := by
          intro hname
          have ht1q : t1 = q := hinj _ (pickBest_mem h1) _ hqelig hname
          exact pickBest_not_beaten h1 p hpelig (by rw [ht1q]; exact hbeats)
        split
        · exact ⟨by simpa using ht1ne, by simp⟩
        · rename_i t2 h2
          refine ⟨by simpa using ht1ne, ?_⟩
          intro hcon
          have ht2name : t2.2 = q.2 := by simpa using hcon
          have ht2elig : t2 ∈ eligibleTags counts vocab :=
            List.mem_of_mem_erase (pickBest_mem h2)
          have ht2q : t2 = q := hinj _ ht2elig _ hqelig ht2name
          by_cases ht1p : t1 = p
          · simp [ht1p]
          · exfalso
            have hpmem : p ∈ (eligibleTags counts vocab).erase t1 :=
              (List.mem_erase_of_ne (Ne.symm ht1p)).mpr hpelig
            exact pickBest_not_beaten h2 p hpmem (by rw [ht2q]; exact hbeats)
  exact ⟨rfl, hmain.1, hmain.2, by decide, by decide, by decide⟩

/-- Witness for C4: with 2 votes each on `notHelpfulOutdated` (priority 12)
and `notHelpfulOther` (priority 0), `notHelpfulOther` is not selected first,
and is second only behind `notHelpfulOutdated`. -/
theorem tag_selection_deterministic_tiebreak_witness :
    (topTwoTags exampleTagCounts notHelpfulTagsAndTieBreakOrder).1 ≠
      some notHelpfulOtherTagKey ∧
    ((topTwoTags exampleTagCounts notHelpfulTagsAndTieBreakOrder).2 =
        some notHelpfulOtherTagKey →
      (topTwoTags exampleTagCounts notHelpfulTagsAndTieBreakOrder).1 =
        some notHelpfulOutdatedTagKey) :=
  have h := tag_selection_deterministic_tiebreak
    notHelpfulTagsAndTieBreakOrder exampleTagCounts
    (12, notHelpfulOutdatedTagKey) (0, notHelpfulOtherTagKey)
    (by decide) (by decide) (by decide) (by decide) (by decide) (by decide)
  ⟨h.2.1, h.2.2.1⟩

/-- C5: the eligibility thresholds are `minRatingsToGetTag = 2` and
`minTagsNeededForStatus = 2`; any selected tag has at least
`minRatingsToGetTag` votes and at least `minTagsNeededForStatus` tags were
eligible; with all-zero vote counts nothing is selected and the selector still
returns a value (no error). -/
theorem tag_selection_thresholds_zero_ratings
    (vocab : List (Nat × String)) (counts : String → Nat) (t : String)
    (h : (topTwoTags counts vocab).1 = some t ∨ (topTwoTags counts vocab).2 = some t) :
    minRatingsToGetTag = 2 ∧ minTagsNeededForStatus = 2 ∧
    minRatingsToGetTag ≤ counts t ∧
    minTagsNeededForStatus ≤ (eligibleTags counts vocab).length ∧
    topTwoTags (fun _ => 0) vocab = (none, none) := by
  have hzero : topTwoTags (fun _ => 0) vocab = (none, none) := by
    have helig : eligibleTags (fun _ => 0) vocab = [] := by
      simp [eligibleTags, minRatingsToGetTag]
    rw [topTwoTags, helig]
    simp [minTagsNeededForStatus]
  have hcount : ∀ x ∈ eligibleTags counts vocab, x.2 = t → minRatingsToGetTag ≤ counts t := by
    intro x hx hxt
    have := (List.mem_filter.mp hx).2
    simp only [decide_eq_true_eq] at this
    rwa [hxt] at this
  by_cases hlen : (eligibleTags counts vocab).length < minTagsNeededForStatus
  · rw [topTwoTags, if_pos hlen] at h
    simp at h
  · refine ⟨rfl, rfl, ?_, by omega, hzero⟩
    rw [topTwoTags, if_neg hlen] at h
    split at h
    · simp at h
    · rename_i t1 h1
      split at h
      · rename_i h2
        simp at h
        exact hcount t1 (pickBest_mem h1) h
      · rename_i t2 h2
        simp at h
        rcases h with h | h
        · exact hcount t1 (pickBest_mem h1) h
        · exact hcount t2 (List.mem_of_mem_erase (pickBest_mem h2)) h

/-- Witness for C5: with 2 votes each on `notHelpfulOutdated` and
`notHelpfulOther`, `notHelpfulOutdated` is selected first, its count meets the
threshold, and with all-zero counts nothing is selected. -/
theorem tag_selection_thresholds_zero_ratings_witness :
    ((topTwoTags exampleTagCounts notHelpfulTagsAndTieBreakOrder).1 =
        some notHelpfulOutdatedTagKey ∨
      (topTwoTags exampleTagCounts notHelpfulTagsAndTieBreakOrder).2 =
        some notHelpfulOutdatedTagKey) ∧
    minRatingsToGetTag ≤ exampleTagCounts notHelpfulOutdatedTagKey ∧
    topTwoTags (fun _ => 0) notHelpfulTagsAndTieBreakOrder = (none, none) :=
  have h := tag_selection_thresholds_zero_ratings
    notHelpfulTagsAndTieBreakOrder exampleTagCounts notHelpfulOutdatedTagKey
    (Or.inl (by decide))
  ⟨Or.inl (by decide), h.2.2.1, h.2.2.2.2⟩

end CommunityNotes
